import Mathlib

/-!
Verification of the reddit-covid data-collection scripts.

Shallow embedding of the four Python modules:
  * `export_to_json.py`   : `buildJsonFile`, `buildErrorTextFile` (modelled
    as pure functions over an explicit file-content state);
  * `CollectRedditData.py`: the three fetch operations of
    `CollectRedditPSIOData`, with the retry loop made explicit over an
    abstract per-attempt outcome;
  * `CollectDataFactory.py`: `getDataSource`;
  * `run_retrieval.py`    : `makeDateRange` and `runRedditPsioQuery`,
    the latter producing an explicit event trace over an abstract client.
-/

/-- JSON values, as produced by Python's `json` module.  Numbers are
modelled as integers (the payloads handled by this repository are opaque;
only structural shape matters for the exporter). -/
inductive Json where
  | null : Json
  | bool (b : Bool) : Json
  | num (n : Int) : Json
  | str (s : String) : Json
  | arr (elems : List Json) : Json
  | obj (fields : List (String × Json)) : Json

/-- `build_json_file` of `export_to_json.py`.  The file system is made
explicit: `existing` is the parsed current content of
`<file_export_name>.json` (`none` when the file does not exist).  The
source writes `new_data` itself when the file is absent; otherwise it
parses the file, calls `.append(new_data)` on the parsed value — which
raises `AttributeError` unless that value is a Python list — and rewrites
the file.  The returned value is the new file content; `Except.error`
models the uncaught `AttributeError`. -/
def buildJsonFile (newData : Json) (existing : Option Json) : Except String Json :=
  match existing with
  | none => Except.ok newData
  | some (Json.arr elems) => Except.ok (Json.arr (elems ++ [newData]))
  | some _ => Except.error "AttributeError: object has no attribute append"

/-- `build_error_text_file` of `export_to_json.py`: appends one line to the
named text file.  The file is modelled as its list of lines. -/
def buildErrorTextFile (newData : String) (fileLines : List String) : List String :=
  fileLines ++ [newData]

/-- Two successive `build_json_file` calls on the same (initially
nonexistent) file: the second call reads back what the first one wrote. -/
def buildJsonFileTwice (first second : Json) : Except String Json :=
  match buildJsonFile first none with
  | Except.ok content => buildJsonFile second (some content)
  | Except.error e => Except.error e

/-- Outcome of one attempt of a fetch operation, i.e. one iteration of the
retry loop in `CollectRedditData.py`: either the request succeeds and its
body parses to `payload`, or the attempt raises
`json.decoder.JSONDecodeError`, or it raises `requests.HTTPError`. -/
inductive Attempt (α : Type) where
  | ok (payload : α) : Attempt α
  | jsonErr : Attempt α
  | httpErr : Attempt α

/-- Whether an attempt is one of the two caught failures. -/
def Attempt.isFail {α : Type} : Attempt α → Bool
  | Attempt.ok _ => false
  | Attempt.jsonErr => true
  | Attempt.httpErr => true

/-- The URL built by `get_submissions` (`CollectRedditData.py` line 86).
Note the source passes `before_date` as the `after` parameter and
`after_date` as the `before` parameter. -/
def submissionsApiCall (query subreddit beforeDate afterDate : String)
    (numberResults : Nat) : String :=
  "https://api.pushshift.io/reddit/search/submission/?q=" ++ query ++
    "&subreddit=" ++ subreddit ++ "&after=" ++ beforeDate ++
    "&before=" ++ afterDate ++ "&limit=" ++ toString numberResults

/-- The URL built by `get_comments_id_from_submissions_id`
(`CollectRedditData.py` line 129). -/
def submissionIdApiCall (submissionId : String) : String :=
  "https://api.pushshift.io/reddit/submission/comment_ids/" ++ submissionId

/-- The URL built by `get_comments` (`CollectRedditData.py` line 174). -/
def commentsApiCall (listCommentsIds : List String) : String :=
  "https://api.pushshift.io/reddit/search/comment?ids=" ++
    String.intercalate "," listCommentsIds

/-- The retry loop shared by `get_submissions` and `get_comments`
(`CollectRedditData.py` lines 83-105 and 171-193).  `attempt i` is the
outcome of the iteration with loop counter `i`; `remaining` is the number
of loop iterations left (`num_retries + 1` at the start); `errFile` is the
current content of the stage error file.  A decode failure calls
`build_error_text_file` with the failing URL and continues; an HTTP error
only logs and continues (the source's `HTTPError` branch never writes the
error file).
Returns the response variable (`none` when the loop exhausted all attempts
without a successful assignment, in which case line 105/193 of the source
raises `UnboundLocalError`) together with the final error-file content. -/
def fetchLoop {α : Type} (attempt : Nat → Attempt α) (url : String)
    (i : Nat) (remaining : Nat) (errFile : List String) :
    Option α × List String :=
  match remaining with
  | 0 => (none, errFile)
  | r + 1 =>
    match attempt i with
    | Attempt.ok payload => (some payload, errFile)
    | Attempt.jsonErr =>
        fetchLoop attempt url (i + 1) r (buildErrorTextFile url errFile)
    | Attempt.httpErr => fetchLoop attempt url (i + 1) r errFile

/-- `CollectRedditPSIOData.get_submissions`.  The HTTP layer is abstracted
into `attempt`; the result pairs the parsed body of the response variable
(`none` models the variable being unbound after total exhaustion) with the
content of `submissions_error.txt` (taken empty at the start of the call). -/
def getSubmissions {α : Type} (attempt : Nat → Attempt α)
    (query subreddit beforeDate afterDate : String) (numRetries : Nat) :
    Option α × List String :=
  fetchLoop attempt (submissionsApiCall query subreddit beforeDate afterDate 500)
    0 (numRetries + 1) []

/-- `CollectRedditPSIOData.get_comments`.  Same looping structure as
`getSubmissions`; the error file is `comment_error.txt`. -/
def getComments {α : Type} (attempt : Nat → Attempt α)
    (listCommentsIds : List String) (numRetries : Nat) :
    Option α × List String :=
  fetchLoop attempt (commentsApiCall listCommentsIds) 0 (numRetries + 1) []

/-- One `{submission_id, comment_id}` pair of the mapping produced by
`get_comments_id_from_submissions_id`. -/
structure SubCommentPair where
  submission_id : String
  comment_id : String
deriving DecidableEq

/-- The retry loop of `get_comments_id_from_submissions_id`
(`CollectRedditData.py` lines 126-152).  A successful attempt yields the
`data` list of comment ids; the loop appends one pair per id to the
accumulator `acc` (initialised to `[]` before the loop) and breaks.  Decode
failures append the URL to `submission_id_error.txt` and continue; HTTP
errors only log and continue. -/
def commentsIdLoop (submissionId : String) (attempt : Nat → Attempt (List String))
    (i : Nat) (remaining : Nat) (acc : List SubCommentPair)
    (errFile : List String) : List SubCommentPair × List String :=
  match remaining with
  | 0 => (acc, errFile)
  | r + 1 =>
    match attempt i with
    | Attempt.ok ids =>
        (acc ++ ids.map (fun commentId => SubCommentPair.mk submissionId commentId),
          errFile)
    | Attempt.jsonErr =>
        commentsIdLoop submissionId attempt (i + 1) r acc
          (buildErrorTextFile (submissionIdApiCall submissionId) errFile)
    | Attempt.httpErr => commentsIdLoop submissionId attempt (i + 1) r acc errFile

/-- `CollectRedditPSIOData.get_comments_id_from_submissions_id`
(`CollectRedditData.py` lines 107-157).  After the loop, an empty
accumulator is replaced by the single sentinel pair
`{submission_id, comment_id: "N/A"}` (lines 154-155). -/
def getCommentsIdFromSubmissionsId (submissionId : String)
    (attempt : Nat → Attempt (List String)) (numRetries : Nat) :
    List SubCommentPair × List String :=
  let result := commentsIdLoop submissionId attempt 0 (numRetries + 1) [] []
  if result.1 = [] then ([SubCommentPair.mk submissionId "N/A"], result.2)
  else result

/-- Integer-valued companion of `make_date_range` (`run_retrieval.py` lines
19-39).  Dates are modelled as integer day ordinals (one unit = one
calendar day, matching `datetime.date` subtraction and
`datetime.timedelta(days=...)` addition); `mktime` abstracts
`time.mktime(day.timetuple())`, the conversion from a local calendar day
to a UNIX timestamp.  The Python loop runs `range(time_delta.days + 1)`
times, which is empty when `end_date < start_date`. -/
def makeDateRangeInt (mktime : Int → Int) (startDate endDate : Int) : List Int :=
  (List.range (endDate - startDate + 1).toNat).map
    (fun numDays : Nat => mktime (startDate + (numDays : Int)))

/-- `make_date_range` itself: the source stores
`str(int(time.mktime(day.timetuple())))`, i.e. the decimal rendering of
each timestamp. -/
def makeDateRange (mktime : Int → Int) (startDate endDate : Int) : List String :=
  (List.range (endDate - startDate + 1).toNat).map
    (fun numDays : Nat => toString (mktime (startDate + (numDays : Int))))

/-- The state of `CollectRedditPSIOData.__init__`: fixed request delay and
page size (`CollectRedditData.py` lines 60-62). -/
structure CollectRedditPSIOData where
  mk ::
  time_delay : Nat
  number_results : Nat
deriving DecidableEq

/-- `CollectDataFactory.get_data_source` (`CollectDataFactory.py` lines
20-36): lowercases the key, returns a freshly constructed
`CollectRedditPSIOData` for `"reddit-historical"`, and `None` otherwise. -/
def getDataSource (dataSource : String) : Option CollectRedditPSIOData :=
  if dataSource.toLower = "reddit-historical" then
    some (CollectRedditPSIOData.mk 2 500)
  else none

/-- A submission record as consumed by the driver: the source only reads
its `id` field (`run_retrieval.py` line 78); the rest of the record is
opaque. -/
structure Submission where
  mk ::
  id : String
deriving DecidableEq

/-- Abstract Data Source Client as seen by the driver: the response data
for each of the three endpoints.  `submissionsData` is
`get_submissions(...)["data"]`; `commentIdMapping` is the pair list
returned by `get_comments_id_from_submissions_id`; `commentsData` is
`get_comments(...)["data"]`. -/
structure ClientOracle where
  mk ::
  submissionsData : String → String → String → String → List Submission
  commentIdMapping : String → List SubCommentPair
  commentsData : List String → Json

/-- One externally visible action of `run_reddit_psio_query`: an endpoint
fetch or a `build_json_file` call on one of the three output files. -/
inductive Event where
  | fetchSubmissions (query subreddit afterTs beforeTs : String) : Event
  | persistSubmissions (data : List Submission) : Event
  | fetchCommentIds (submissionId : String) : Event
  | persistMapping (mapping : List SubCommentPair) : Event
  | fetchComments (commentIds : List String) : Event
  | persistComments (data : Json) : Event

/-- The body of the inner loop of `run_reddit_psio_query`
(`run_retrieval.py` lines 81-91): fetch the comment-id mapping for one
submission id, persist it, extract the comment ids, and fetch + persist
the comments when `list_comments_ids[0] != "N/A"`.  The source indexes
`list_comments_ids[0]` unconditionally; `none` models the `IndexError`
raised when the mapping is empty. -/
def processSubmissionId (client : ClientOracle) (subId : String) :
    Option (List Event) :=
  let mapping := client.commentIdMapping subId
  let listCommentsIds := mapping.map (fun c => c.comment_id)
  match listCommentsIds.head? with
  | none => none
  | some firstId =>
    some ([Event.fetchCommentIds subId, Event.persistMapping mapping] ++
      (if firstId ≠ "N/A" then
        [Event.fetchComments listCommentsIds,
          Event.persistComments (client.commentsData listCommentsIds)]
      else []))

/-- The body of the outer loop of `run_reddit_psio_query`
(`run_retrieval.py` lines 68-91) for one `(after, before)` window: fetch
submissions, persist `submissions["data"]`, extract the submission ids,
and run `processSubmissionId` on each. -/
def processWindow (client : ClientOracle) (query subreddit : String)
    (afterTs beforeTs : String) : Option (List Event) :=
  let subsData := client.submissionsData query subreddit afterTs beforeTs
  let subsId := subsData.map (fun s => s.id)
  (subsId.mapM (processSubmissionId client)).map
    (fun tails =>
      [Event.fetchSubmissions query subreddit afterTs beforeTs,
        Event.persistSubmissions subsData] ++ tails.flatten)

/-- `run_reddit_psio_query` (`run_retrieval.py` lines 41-91): builds the
date range, then iterates `idx` over `range(len(date_range) - 1)` taking
the window `(date_range[idx], date_range[idx+1])` — exactly the pairs of
`date_range` zipped with its tail.  The result is the ordered trace of
fetches and file writes; `none` models an uncaught `IndexError` in the
inner loop. -/
def runRedditPsioQuery (client : ClientOracle) (mktime : Int → Int)
    (query subreddit : String) (startDate endDate : Int) :
    Option (List Event) :=
  let dateRange := makeDateRange mktime startDate endDate
  let windows := dateRange.zip dateRange.tail
  (windows.mapM (fun w => processWindow client query subreddit w.1 w.2)).map
    List.flatten

/-- Projects a trace event to the `(after, before)` window of a
submissions fetch, and to `none` for every other event. -/
def subWindow : Event → Option (String × String)
  | Event.fetchSubmissions _ _ afterTs beforeTs => some (afterTs, beforeTs)
  | _ => none

/-- A small concrete client used to instantiate driver theorems: one
submission per window, one comment per submission. -/
def exampleClient : ClientOracle :=
  ClientOracle.mk (fun _ _ _ _ => [Submission.mk "s1"])
    (fun subId => [SubCommentPair.mk subId "c1"])
    (fun _ => Json.null)

/-- If every attempt fails with a caught error, the retry loop exhausts all
iterations and the response variable is never assigned. -/
theorem fetchLoop_all_fail {α : Type} (attempt : Nat → Attempt α) (url : String)
    (i remaining : Nat) (errFile : List String)
    (h : ∀ j, (attempt j).isFail = true) :
    (fetchLoop attempt url i remaining errFile).1 = none := by
  induction remaining generalizing i errFile with
  | zero => rfl
  | succ r ih =>
    have hi := h i
    unfold fetchLoop
    cases hatt : attempt i with
    | ok payload => rw [hatt] at hi; simp [Attempt.isFail] at hi
    | jsonErr => simp [hatt, ih]
    | httpErr => simp [hatt, ih]

/-- C4, counterexample.  The claim says creating a previously nonexistent
file with payload `p` yields the array `[p]` of length 1; the source
(`export_to_json.py` lines 26-29) dumps `p` itself.  At the concrete
payload `[1, 2]` the created file is that two-element array, not a
one-element array containing it. -/
theorem c4_counterexample :
    buildJsonFile (Json.arr [Json.num 1, Json.num 2]) none
        = Except.ok (Json.arr [Json.num 1, Json.num 2]) ∧
      Json.arr [Json.num 1, Json.num 2]
        ≠ Json.arr [Json.arr [Json.num 1, Json.num 2]] := by
  refine ⟨rfl, fun h => ?_⟩
  injection h with h1
  injection h1 with h2
  exact absurd h2 (by simp)

/-- C4, amended: calling the JSON exporter with a file name that does not
yet exist creates a file whose contents are exactly the given payload (not
wrapped in a one-element array). -/
theorem c4_fresh_file_contains_payload (p : Json) :
    buildJsonFile p none = Except.ok p := rfl

/-- C5, counterexample.  The claim says writing payloads `P` then `Q` to an
initially nonexistent file yields the array `[P, Q]` of length 2.  For
`P = [1, 2]`, `Q = 3`, the source produces `[1, 2, 3]` (the first payload
with the second appended), not `[[1, 2], 3]`. -/
theorem c5_counterexample :
    buildJsonFileTwice (Json.arr [Json.num 1, Json.num 2]) (Json.num 3)
        = Except.ok (Json.arr [Json.num 1, Json.num 2, Json.num 3]) ∧
      Json.arr [Json.num 1, Json.num 2, Json.num 3]
        ≠ Json.arr [Json.arr [Json.num 1, Json.num 2], Json.num 3] := by
  refine ⟨rfl, fun h => ?_⟩
  injection h with h1
  injection h1 with h2
  exact Json.noConfusion h2

/-- C5, amended: writing payload `arr elems` and then payload `q` to the
same initially nonexistent file produces the JSON array `elems ++ [q]`,
i.e. the first payload's own elements followed by the second payload as
one appended element (length `elems.length + 1`, order preserved). -/
theorem c5_two_appends (elems : List Json) (q : Json) :
    buildJsonFileTwice (Json.arr elems) q
      = Except.ok (Json.arr (elems ++ [q])) := rfl

/-- C9: when the named file exists and parses to a JSON array, the exporter
rewrites it to an array that is one element longer, whose prefix is the
prior array unchanged and in order and whose last element is the new
payload. -/
theorem c9_append_preserves_prefix (elems : List Json) (p : Json) :
    ∃ newElems, buildJsonFile p (some (Json.arr elems)) = Except.ok (Json.arr newElems) ∧
      newElems.length = elems.length + 1 ∧
      newElems.take elems.length = elems ∧
      newElems.getLast? = some p := by
  refine ⟨elems ++ [p], rfl, by simp, ?_, by simp⟩
  simp [List.take_left]

/-- C7: the Source Selector returns the constructed pushshift client
(`time_delay = 2`, `number_results = 500`) exactly for keys that
case-insensitively equal `"reddit-historical"`, and `None` for every other
key. -/
theorem c7_get_data_source (s : String) :
    (getDataSource s = some (CollectRedditPSIOData.mk 2 500)
        ↔ s.toLower = "reddit-historical") ∧
      (getDataSource s = none ↔ s.toLower ≠ "reddit-historical") := by
  unfold getDataSource
  by_cases h : s.toLower = "reddit-historical" <;> simp [h]

/-- C3: when the comment-ids endpoint answers the first attempt with `ids`,
fetch-comment-ids returns one `{submission_id, comment_id}` pair per id in
the endpoint's order, except that an empty `ids` yields exactly the one
sentinel pair `{submission_id, comment_id: "N/A"}`; moreover the returned
list is never empty, whatever the attempts do. -/
theorem c3_comment_id_pairs (subId : String) (ids : List String)
    (attempt : Nat → Attempt (List String)) (numRetries : Nat)
    (h : attempt 0 = Attempt.ok ids) :
    (getCommentsIdFromSubmissionsId subId attempt numRetries).1 =
        (if ids = [] then [SubCommentPair.mk subId "N/A"]
         else ids.map (fun commentId => SubCommentPair.mk subId commentId)) ∧
      ∀ (att : Nat → Attempt (List String)) (n : Nat),
        (getCommentsIdFromSubmissionsId subId att n).1 ≠ [] := by
  constructor
  · have hloop : commentsIdLoop subId attempt 0 (numRetries + 1) [] [] =
        (ids.map (fun commentId => SubCommentPair.mk subId commentId), []) := by
      unfold commentsIdLoop
      rw [h]
      simp
    unfold getCommentsIdFromSubmissionsId
    rw [hloop]
    by_cases hids : ids = []
    · simp [hids]
    · simp [hids]
  · intro att n
    unfold getCommentsIdFromSubmissionsId
    by_cases hres : (commentsIdLoop subId att 0 (n + 1) [] []).1 = [] <;>
      simp [hres]

/-- Witness for `c3_comment_id_pairs` at `subId = "abc"`,
`ids = ["a", "b"]`, first attempt successful, one retry allowed. -/
theorem c3_comment_id_pairs_witness :
    (getCommentsIdFromSubmissionsId "abc" (fun _ => Attempt.ok ["a", "b"]) 1).1 =
        (if (["a", "b"] : List String) = [] then [SubCommentPair.mk "abc" "N/A"]
         else ["a", "b"].map (fun commentId => SubCommentPair.mk "abc" commentId)) ∧
      ∀ (att : Nat → Attempt (List String)) (n : Nat),
        (getCommentsIdFromSubmissionsId "abc" att n).1 ≠ [] :=
  c3_comment_id_pairs "abc" ["a", "b"] (fun _ => Attempt.ok ["a", "b"]) 1 rfl

/-- The error-file content produced by fetch-comment-ids is the one
accumulated by its retry loop; the sentinel substitution only affects the
returned pair list. -/
theorem getCommentsIdFromSubmissionsId_snd (subId : String)
    (att : Nat → Attempt (List String)) (n : Nat) :
    (getCommentsIdFromSubmissionsId subId att n).2 =
      (commentsIdLoop subId att 0 (n + 1) [] []).2 := by
  unfold getCommentsIdFromSubmissionsId
  by_cases h : (commentsIdLoop subId att 0 (n + 1) [] []).1 = [] <;> simp [h]

/-- C1, counterexample.  The claim says every attempt failing with a
JSON-decode failure or an HTTP-level error appends the failing URL to the
stage error file.  In the source the `requests.HTTPError` branch only logs
and continues (`CollectRedditData.py` lines 97-100): after one HTTP-error
attempt followed by a success, the error file has zero lines, not one. -/
theorem c1_counterexample :
    getSubmissions
        (fun i => if i = 0 then Attempt.httpErr else Attempt.ok Json.null)
        "covid" "Canada" "100" "200" 1 = (some Json.null, []) ∧
      (fun i => if i = 0 then (Attempt.httpErr : Attempt Json)
                else Attempt.ok Json.null) 0 = Attempt.httpErr :=
  ⟨rfl, rfl⟩

/-- C1, amended: for each fetch operation, an attempt failing with a
JSON-decode failure logs, appends the failing request URL as one line to
that stage's error file and retries, while an attempt failing with an
HTTP-level error logs and retries without writing the error file; in
particular, for a request sequence that decode-fails twice and then
succeeds, called with `retries = 2`, each operation returns the successful
parsed payload and the error log file contains exactly two lines. -/
theorem c1_retry_error_files (p : Json) (q sr b a subId : String)
    (ids : List String) :
    getSubmissions (fun i => if i < 2 then Attempt.jsonErr else Attempt.ok p)
        q sr b a 2 =
      (some p, [submissionsApiCall q sr b a 500, submissionsApiCall q sr b a 500]) ∧
    getSubmissions (fun i => if i = 0 then Attempt.httpErr else Attempt.ok p)
        q sr b a 1 = (some p, []) ∧
    (getCommentsIdFromSubmissionsId subId
        (fun i => if i < 2 then Attempt.jsonErr else Attempt.ok ids) 2).2 =
      [submissionIdApiCall subId, submissionIdApiCall subId] ∧
    (getCommentsIdFromSubmissionsId subId
        (fun i => if i = 0 then Attempt.httpErr else Attempt.ok ids) 1).2 = [] ∧
    getComments (fun i => if i < 2 then Attempt.jsonErr else Attempt.ok p)
        ids 2 = (some p, [commentsApiCall ids, commentsApiCall ids]) ∧
    getComments (fun i => if i = 0 then Attempt.httpErr else Attempt.ok p)
        ids 1 = (some p, []) := by
  refine ⟨rfl, rfl, ?_, ?_, rfl, rfl⟩
  · rw [getCommentsIdFromSubmissionsId_snd]
    rfl
  · rw [getCommentsIdFromSubmissionsId_snd]
    rfl

/-- C2, counterexample.  The claim says every fetch operation, after all
attempts fail, leaves its result unassigned and raises a reference error.
But fetch-comment-ids returns its accumulator (initialised before the
loop) and substitutes the sentinel when it is empty: with every attempt
decode-failing and one retry, it cleanly returns the sentinel pair list,
no reference error. -/
theorem c2_counterexample :
    getCommentsIdFromSubmissionsId "abc" (fun _ => Attempt.jsonErr) 1 =
      ([SubCommentPair.mk "abc" "N/A"],
        [submissionIdApiCall "abc", submissionIdApiCall "abc"]) := rfl

/-- C2, amended: for fetch-submissions and fetch-comments (but not
fetch-comment-ids), if every attempt fails with a caught error, the retry
loop exits by attempt exhaustion with the response variable never
successfully assigned, so evaluating `.json()` on it at the end of the
operation raises a reference error (the unassigned variable is modelled as
the `none` result). -/
theorem c2_exhaustion_unassigned {α : Type} (attempt : Nat → Attempt α)
    (numRetries : Nat) (q sr b a : String) (ids : List String)
    (h : ∀ j, (attempt j).isFail = true) :
    (getSubmissions attempt q sr b a numRetries).1 = none ∧
      (getComments attempt ids numRetries).1 = none :=
  ⟨fetchLoop_all_fail attempt _ 0 (numRetries + 1) [] h,
    fetchLoop_all_fail attempt _ 0 (numRetries + 1) [] h⟩

/-- Witness for `c2_exhaustion_unassigned`: every attempt raises a decode
error, one retry allowed. -/
theorem c2_exhaustion_unassigned_witness :
    (getSubmissions (fun _ => (Attempt.jsonErr : Attempt Json))
        "covid" "Canada" "100" "200" 1).1 = none ∧
      (getComments (fun _ => (Attempt.jsonErr : Attempt Json)) ["a"] 1).1 = none :=
  c2_exhaustion_unassigned (fun _ => Attempt.jsonErr) 1 "covid" "Canada" "100" "200"
    ["a"] (fun _ => rfl)

/-- C6: for `start_date ≤ end_date` spanning `N = end - start` days, and a
local timezone in which `time.mktime` converts a calendar day to a UNIX
timestamp at a fixed offset (no DST jump inside the range, which is what
"exactly 86400 seconds apart in local wall-clock terms" pins down), the
day-bucket generator returns exactly `N + 1` timestamp strings, the
decimal renderings of integer timestamps that are strictly increasing and
exactly 86400 seconds apart. -/
theorem c6_date_range (mktime : Int → Int) (startDate endDate offset : Int)
    (hle : startDate ≤ endDate)
    (hm : ∀ d, mktime d = 86400 * d + offset) :
    makeDateRange mktime startDate endDate
        = (makeDateRangeInt mktime startDate endDate).map toString ∧
      (makeDateRangeInt mktime startDate endDate).length
        = (endDate - startDate).toNat + 1 ∧
      List.Chain' (fun x y => y = x + 86400)
        (makeDateRangeInt mktime startDate endDate) ∧
      List.Chain' (fun x y => x < y) (makeDateRangeInt mktime startDate endDate) := by
  have hn : (endDate - startDate + 1).toNat = (endDate - startDate).toNat + 1 := by
    omega
  have hchain : List.Chain' (fun x y => y = x + 86400)
      (makeDateRangeInt mktime startDate endDate) := by
    unfold makeDateRangeInt
    rw [hn, List.chain'_map, List.chain'_range_succ]
    intro m hm2
    rw [hm, hm]
    push_cast
    ring
  refine ⟨?_, ?_, hchain, ?_⟩
  · unfold makeDateRange makeDateRangeInt
    rw [List.map_map]
    rfl
  · unfold makeDateRangeInt
    rw [List.length_map, List.length_range, hn]
  · exact hchain.imp (fun x y hxy => by omega)

/-- Witness for `c6_date_range` over the three days `0, 1, 2` with a local
timezone at fixed offset 1. -/
theorem c6_date_range_witness :
    ((0 : Int) ≤ 2 ∧ ∀ d : Int, (fun x : Int => 86400 * x + 1) d = 86400 * d + 1) ∧
      (makeDateRange (fun x : Int => 86400 * x + 1) 0 2
          = (makeDateRangeInt (fun x : Int => 86400 * x + 1) 0 2).map toString ∧
        (makeDateRangeInt (fun x : Int => 86400 * x + 1) 0 2).length
          = ((2 : Int) - 0).toNat + 1 ∧
        List.Chain' (fun x y => y = x + 86400)
          (makeDateRangeInt (fun x : Int => 86400 * x + 1) 0 2) ∧
        List.Chain' (fun x y => x < y)
          (makeDateRangeInt (fun x : Int => 86400 * x + 1) 0 2)) :=
  ⟨⟨by decide, fun d => rfl⟩,
    c6_date_range (fun x : Int => 86400 * x + 1) 0 2 1 (by decide) (fun d => rfl)⟩

/-- C10: with `start_date = end_date` the date range has exactly one
bucket, the outer loop `range(len - 1)` is empty, and the driver performs
no fetch and writes no file: the event trace is empty. -/
theorem c10_equal_dates_no_work (client : ClientOracle) (mktime : Int → Int)
    (query subreddit : String) (d : Int) :
    (makeDateRange mktime d d).length = 1 ∧
      runRedditPsioQuery client mktime query subreddit d d = some [] := by
  have hrange : makeDateRange mktime d d = [toString (mktime d)] := by
    unfold makeDateRange
    have h1 : (d - d + 1).toNat = 1 := by omega
    rw [h1]
    show [toString (mktime (d + ((0 : Nat) : Int)))] = [toString (mktime d)]
    norm_num
  constructor
  · rw [hrange]
    rfl
  · unfold runRedditPsioQuery
    rw [hrange]
    rfl

/-- When the comment-id mapping of a submission id is nonempty (as
`get_comments_id_from_submissions_id` guarantees), the inner loop body
succeeds: it fetches and persists the mapping, produces no submissions
fetch, and fetches comments exactly when the first comment id is not the
`"N/A"` sentinel. -/
theorem processSubmissionId_some (client : ClientOracle) (subId : String)
    (h : client.commentIdMapping subId ≠ []) :
    ∃ evs, processSubmissionId client subId = some evs ∧
      (∀ ev ∈ evs, subWindow ev = none) ∧
      Event.fetchCommentIds subId ∈ evs ∧
      Event.persistMapping (client.commentIdMapping subId) ∈ evs ∧
      (((∃ ids, Event.fetchComments ids ∈ evs) ∧
          ∃ data, Event.persistComments data ∈ evs) ↔
        ((client.commentIdMapping subId).map (fun c => c.comment_id)).head?
          ≠ some "N/A") := by
  obtain ⟨c, cs, hmap⟩ := List.exists_cons_of_ne_nil h
  by_cases hna : c.comment_id = "N/A"
  · refine ⟨[Event.fetchCommentIds subId,
      Event.persistMapping (client.commentIdMapping subId)], ?_, ?_, ?_, ?_, ?_⟩
    · unfold processSubmissionId
      rw [hmap]
      simp [hna]
    · intro ev hev
      fin_cases hev <;> rfl
    · simp
    · simp
    · rw [hmap]
      simp [hna]
  · refine ⟨[Event.fetchCommentIds subId,
      Event.persistMapping (client.commentIdMapping subId),
      Event.fetchComments ((client.commentIdMapping subId).map (fun p => p.comment_id)),
      Event.persistComments (client.commentsData
        ((client.commentIdMapping subId).map (fun p => p.comment_id)))],
      ?_, ?_, ?_, ?_, ?_⟩
    · unfold processSubmissionId
      rw [hmap]
      simp [hna]
    · intro ev hev
      fin_cases hev <;> rfl
    · simp
    · simp
    · rw [hmap]
      constructor
      · intro _
        simp [hna]
      · intro _
        refine ⟨⟨(client.commentIdMapping subId).map (fun p => p.comment_id), ?_⟩,
          ⟨client.commentsData
            ((client.commentIdMapping subId).map (fun p => p.comment_id)), ?_⟩⟩ <;>
          simp [hmap]

/-- Sequencing the inner loop body over a list of submission ids succeeds
when every comment-id mapping is nonempty, and none of the produced events
is a submissions fetch. -/
theorem mapM_processSubmissionId_some (client : ClientOracle)
    (h : ∀ subId, client.commentIdMapping subId ≠ []) (ids : List String) :
    ∃ tails, ids.mapM (processSubmissionId client) = some tails ∧
      ∀ evs ∈ tails, ∀ ev ∈ evs, subWindow ev = none := by
  induction ids with
  | nil => exact ⟨[], rfl, by simp⟩
  | cons subId rest ih =>
    obtain ⟨evs, hevs, hnone, _, _, _⟩ := processSubmissionId_some client subId (h subId)
    obtain ⟨tails, htails, htnone⟩ := ih
    refine ⟨evs :: tails, ?_, ?_⟩
    · rw [List.mapM_cons, hevs, htails]
      rfl
    · intro evs2 hevs2
      rcases List.mem_cons.mp hevs2 with rfl | hevs2
      · exact hnone
      · exact htnone evs2 hevs2

/-- One outer-loop iteration of the driver succeeds when every comment-id
mapping is nonempty, and its trace contains exactly one submissions fetch,
namely the one for this `(after, before)` window. -/
theorem processWindow_some (client : ClientOracle) (query subreddit : String)
    (h : ∀ subId, client.commentIdMapping subId ≠ [])
    (afterTs beforeTs : String) :
    ∃ evts, processWindow client query subreddit afterTs beforeTs = some evts ∧
      evts.filterMap subWindow = [(afterTs, beforeTs)] := by
  obtain ⟨tails, htails, htnone⟩ := mapM_processSubmissionId_some client h
    ((client.submissionsData query subreddit afterTs beforeTs).map (fun s => s.id))
  refine ⟨[Event.fetchSubmissions query subreddit afterTs beforeTs,
      Event.persistSubmissions (client.submissionsData query subreddit afterTs beforeTs)]
      ++ tails.flatten, ?_, ?_⟩
  · simp only [processWindow]
    rw [htails]
    rfl
  · rw [List.filterMap_append]
    have hflat : tails.flatten.filterMap subWindow = [] := by
      rw [List.filterMap_eq_nil_iff]
      intro ev hev
      obtain ⟨evs, hevs, hev2⟩ := List.mem_flatten.mp hev
      exact htnone evs hevs ev hev2
    rw [hflat]
    rfl

/-- Sequencing the outer loop body over any window list succeeds when every
comment-id mapping is nonempty, and projecting the flattened trace to
submissions fetches recovers exactly the window list. -/
theorem mapM_processWindow_some (client : ClientOracle) (query subreddit : String)
    (h : ∀ subId, client.commentIdMapping subId ≠ [])
    (windows : List (String × String)) :
    ∃ trs, windows.mapM
        (fun w => processWindow client query subreddit w.1 w.2) = some trs ∧
      trs.flatten.filterMap subWindow = windows := by
  induction windows with
  | nil => exact ⟨[], rfl, rfl⟩
  | cons w rest ih =>
    obtain ⟨evts, hevts, hproj⟩ := processWindow_some client query subreddit h w.1 w.2
    obtain ⟨trs, htrs, htproj⟩ := ih
    refine ⟨evts :: trs, ?_, ?_⟩
    · rw [List.mapM_cons, hevts, htrs]
      rfl
    · rw [List.flatten_cons, List.filterMap_append, hproj, htproj]
      simp

/-- C8: over a day-bucket list of length `L` the Retrieval Driver performs
exactly `L - 1` submission fetches, one per consecutive timestamp pair
(window `i` uses timestamps `i` and `i + 1`, i.e. the fetched windows are
the date range zipped with its own tail, in order); and for each
submission id the inner loop fetches and persists the comment-id mapping
and then fetches and persists comments if and only if the first comment id
of the mapping is not `"N/A"`.  The hypothesis that every mapping is
nonempty is what `get_comments_id_from_submissions_id` guarantees via its
sentinel. -/
theorem c8_driver_trace (client : ClientOracle) (mktime : Int → Int)
    (query subreddit : String) (startDate endDate : Int)
    (h : ∀ subId, client.commentIdMapping subId ≠ []) :
    ∃ tr, runRedditPsioQuery client mktime query subreddit startDate endDate
        = some tr ∧
      tr.filterMap subWindow
        = (makeDateRange mktime startDate endDate).zip
            (makeDateRange mktime startDate endDate).tail ∧
      (tr.filterMap subWindow).length
        = (makeDateRange mktime startDate endDate).length - 1 ∧
      ∀ subId, ∃ evs, processSubmissionId client subId = some evs ∧
        Event.fetchCommentIds subId ∈ evs ∧
        Event.persistMapping (client.commentIdMapping subId) ∈ evs ∧
        (((∃ ids, Event.fetchComments ids ∈ evs) ∧
            ∃ data, Event.persistComments data ∈ evs) ↔
          ((client.commentIdMapping subId).map (fun c => c.comment_id)).head?
            ≠ some "N/A") := by
  obtain ⟨trs, htrs, hproj⟩ := mapM_processWindow_some client query subreddit h
    ((makeDateRange mktime startDate endDate).zip
      (makeDateRange mktime startDate endDate).tail)
  refine ⟨trs.flatten, ?_, hproj, ?_, ?_⟩
  · simp only [runRedditPsioQuery]
    rw [htrs]
    rfl
  · rw [hproj, List.length_zip, List.length_tail]
    omega
  · intro subId
    obtain ⟨evs, hevs, _, hm1, hm2, hiff⟩ :=
      processSubmissionId_some client subId (h subId)
    exact ⟨evs, hevs, hm1, hm2, hiff⟩

/-- Witness for `c8_driver_trace`: the two-day range `0, 1` with
`exampleClient`, whose comment-id mappings are all the one-element list. -/
theorem c8_driver_trace_witness :
    (∀ subId, exampleClient.commentIdMapping subId ≠ []) ∧
      ∃ tr, runRedditPsioQuery exampleClient (fun d => d) "covid" "Canada" 0 1
          = some tr ∧
        tr.filterMap subWindow
          = (makeDateRange (fun d => d) 0 1).zip
              (makeDateRange (fun d => d) 0 1).tail ∧
        (tr.filterMap subWindow).length
          = (makeDateRange (fun d => d) 0 1).length - 1 ∧
        ∀ subId, ∃ evs, processSubmissionId exampleClient subId = some evs ∧
          Event.fetchCommentIds subId ∈ evs ∧
          Event.persistMapping (exampleClient.commentIdMapping subId) ∈ evs ∧
          (((∃ ids, Event.fetchComments ids ∈ evs) ∧
              ∃ data, Event.persistComments data ∈ evs) ↔
            ((exampleClient.commentIdMapping subId).map
                (fun c => c.comment_id)).head? ≠ some "N/A") :=
  ⟨fun subId => by simp [exampleClient],
    c8_driver_trace exampleClient (fun d => d) "covid" "Canada" 0 1
      (fun subId => by simp [exampleClient])⟩
